import Mathlib

/-!
Verification development for the mmetl Slack-to-Mattermost transformer
(`services/slack` package).  The definitions below are a shallow embedding of
the Go source: `AddPostToThreads`, the attachment-props block of
`TransformPosts`, `TransformChannels`, `filterValidMembers`,
`getOriginalName`, the `Sanitise` methods, and a model of the thread-store
backends (whose implementation file is not among the provided sources and is
therefore modelled from the spec and from its test `TestRedisStorage`).

Go machine strings are modelled as Lean `String` (rune-level operations use
`String.length`/`toList`; byte-level length uses `String.utf8ByteSize`);
Go `int64` creation times are modelled as unbounded `Int` (the arithmetic in
the embedded code is a unit increment on values derived from Slack
timestamps, far from the 64-bit boundary); the Go `map[int64]bool` timestamp
set is modelled as a `List Int` used as a set; logging calls are modelled as
an explicit list of emitted log events.
-/

set_option autoImplicit false

namespace Mmetl

/-- Mattermost channel types (`model.ChannelType` values "O", "P", "G", "D"). -/
inductive ChannelType : Type where
  | openCh
  | privateCh
  | groupCh
  | directCh
deriving DecidableEq, Repr

/-- Embedding of `IntermediatePost`.  `props` models the
`model.StringInterface` props map, which in this code is either unset or
exactly `{"attachments": <slack attachments>}`; the Slack attachment values
are opaque payloads here, modelled as strings.  Field order follows the Go
struct: user, channel, message, props, createAt, attachments, replies,
isDirect, channelMembers. -/
inductive IntermediatePost : Type where
  | mk : String → String → String → Option (List String) → Int → List String →
      List IntermediatePost → Bool → List String → IntermediatePost

namespace IntermediatePost

def user : IntermediatePost → String
  | .mk u _ _ _ _ _ _ _ _ => u

def channel : IntermediatePost → String
  | .mk _ c _ _ _ _ _ _ _ => c

def message : IntermediatePost → String
  | .mk _ _ m _ _ _ _ _ _ => m

def props : IntermediatePost → Option (List String)
  | .mk _ _ _ pr _ _ _ _ _ => pr

def createAt : IntermediatePost → Int
  | .mk _ _ _ _ t _ _ _ _ => t

def attachments : IntermediatePost → List String
  | .mk _ _ _ _ _ a _ _ _ => a

def replies : IntermediatePost → List IntermediatePost
  | .mk _ _ _ _ _ _ r _ _ => r

def isDirect : IntermediatePost → Bool
  | .mk _ _ _ _ _ _ _ d _ => d

def channelMembers : IntermediatePost → List String
  | .mk _ _ _ _ _ _ _ _ cm => cm

def setMessage : IntermediatePost → String → IntermediatePost
  | .mk u c _ pr t a r d cm, m => .mk u c m pr t a r d cm

def setProps : IntermediatePost → Option (List String) → IntermediatePost
  | .mk u c m _ t a r d cm, pr => .mk u c m pr t a r d cm

def setCreateAt : IntermediatePost → Int → IntermediatePost
  | .mk u c m pr _ a r d cm, t => .mk u c m pr t a r d cm

def setIsDirect : IntermediatePost → Bool → IntermediatePost
  | .mk u c m pr t a r _ cm, d => .mk u c m pr t a r d cm

def setChannelMembers : IntermediatePost → List String → IntermediatePost
  | .mk u c m pr t a r d _, cm => .mk u c m pr t a r d cm

/-- Embedding of the Go pointer mutation
`rootPost.Replies = append(rootPost.Replies, p)`. -/
def appendReply : IntermediatePost → IntermediatePost → IntermediatePost
  | .mk u c m pr t a r d cm, p => .mk u c m pr t a (r ++ [p]) d cm

end IntermediatePost

/-- `PosgreSQLMaxPostSize` from the source: `65535 / 4`. -/
def PosgreSQLMaxPostSize : Nat := 65535 / 4

/-- `WorkflowUserName` from the source. -/
def WorkflowUserName : String := "imported-workflow"

/-- Embedding of `(*IntermediatePost).Sanitise`: truncate the message to
`PosgreSQLMaxPostSize` runes. -/
def sanitisePost (p : IntermediatePost) : IntermediatePost :=
  if p.message.length > PosgreSQLMaxPostSize then
    p.setMessage (String.mk (p.message.toList.take PosgreSQLMaxPostSize))
  else p

/-- Embedding of the raw Slack message record (`SlackPost`), restricted to
the fields `AddPostToThreads` reads: the original timestamp string and the
thread-root timestamp string. -/
structure SlackPost : Type where
  timeStamp : String
  threadTS : String
deriving DecidableEq, Repr

/-- Embedding of `IntermediateChannel`. -/
structure IntermediateChannel : Type where
  id : String
  originalName : String
  name : String
  displayName : String
  members : List String
  membersUsernames : List String
  purpose : String
  header : String
  topic : String
  type : ChannelType
deriving Repr

/-- Log events emitted by the embedded code (stand-ins for the
`log.Printf` / `log.Println` / `logger.Warn` calls). -/
inductive LogEvent : Type where
  /-- `ERROR processing post in thread, couldn't find rootPost` -/
  | errorNoRoot (original : SlackPost)
  /-- `WARNING: overwriting root post for thread <ts>` -/
  | warnOverwrite (ts : String)
  /-- `Unable import post as props exceed the maximum character count.
  Skipping as --discard-invalid-props is enabled.` -/
  | warnOversizedPropsSkipPost
  /-- `Unable to add props to post as they exceed the maximum character
  count.` -/
  | warnOversizedPropsDropped
deriving DecidableEq, Repr

/-! ## Timestamp collision resolution

The Go loop in `AddPostToThreads`:
```
for {
    if _, ok := timestamps[post.CreateAt]; !ok { break }
    post.CreateAt++
}
timestamps[post.CreateAt] = true
```
is embedded as `resolveTS`, a fuel-bounded scan for the least value `≥ t`
absent from the ledger; `ledger.length + 1` fuel always suffices. -/

/-- One step of the collision loop with explicit fuel. -/
def resolveFrom (ledger : List Int) : Nat → Int → Int
  | 0, t => t
  | fuel + 1, t => if t ∈ ledger then resolveFrom ledger fuel (t + 1) else t

/-- The resolved creation time: the value `post.CreateAt` holds when the Go
loop exits. -/
def resolveTS (ledger : List Int) (t : Int) : Int :=
  resolveFrom ledger (ledger.length + 1) t

theorem resolveFrom_spec (ledger : List Int) :
    ∀ (fuel : Nat) (t : Int), (∃ k : Nat, k < fuel ∧ t + k ∉ ledger) →
      resolveFrom ledger fuel t ∉ ledger ∧ t ≤ resolveFrom ledger fuel t ∧
        ∀ v : Int, t ≤ v → v < resolveFrom ledger fuel t → v ∈ ledger := by
  intro fuel
  induction fuel with
  | zero =>
    intro t h
    obtain ⟨k, hk, _⟩ := h
    exact absurd hk (Nat.not_lt_zero k)
  | succ n ih =>
    intro t h
    by_cases hmem : t ∈ ledger
    · obtain ⟨k, hk, hfree⟩ := h
      have hk0 : k ≠ 0 := by
        intro h0
        rw [h0] at hfree
        simp at hfree
        exact hfree hmem
      obtain ⟨k', rfl⟩ := Nat.exists_eq_succ_of_ne_zero hk0
      have hprev : ∃ k : Nat, k < n ∧ (t + 1) + k ∉ ledger := by
        refine ⟨k', Nat.lt_of_succ_lt_succ hk, ?_⟩
        have : (t + 1) + (k' : Int) = t + (k' + 1 : Nat) := by push_cast; ring
        rw [this]
        exact hfree
      obtain ⟨h1, h2, h3⟩ := ih (t + 1) hprev
      have hstep : resolveFrom ledger (n + 1) t = resolveFrom ledger n (t + 1) := by
        simp [resolveFrom, hmem]
      refine ⟨by rw [hstep]; exact h1, ?_, ?_⟩
      · rw [hstep]; omega
      · intro v hv1 hv2
        rw [hstep] at hv2
        rcases eq_or_lt_of_le hv1 with heq | hlt
        · rw [← heq]; exact hmem
        · exact h3 v (by omega) hv2
    · have hstep : resolveFrom ledger (n + 1) t = t := by
        simp [resolveFrom, hmem]
      rw [hstep]
      exact ⟨hmem, le_refl t, fun v hv1 hv2 => absurd (lt_of_le_of_lt hv1 hv2) (lt_irrefl t)⟩

theorem exists_free_slot (ledger : List Int) (t : Int) :
    ∃ k : Nat, k < ledger.length + 1 ∧ t + k ∉ ledger := by
  by_contra hall
  push_neg at hall
  have hsub : (Finset.range (ledger.length + 1)).image (fun k : Nat => t + k) ⊆
      ledger.toFinset := by
    intro v hv
    simp only [Finset.mem_image, Finset.mem_range] at hv
    obtain ⟨k, hk, rfl⟩ := hv
    rw [List.mem_toFinset]
    exact hall k hk
  have hinj : Function.Injective (fun k : Nat => t + (k : Int)) := by
    intro a b hab
    simp only at hab
    omega
  have hcard1 : ((Finset.range (ledger.length + 1)).image
      (fun k : Nat => t + k)).card = ledger.length + 1 := by
    rw [Finset.card_image_of_injective _ hinj, Finset.card_range]
  have hcard2 : ledger.toFinset.card ≤ ledger.length := ledger.toFinset_card_le
  have := Finset.card_le_card hsub
  omega

/-- The resolved timestamp is absent from the ledger. -/
theorem resolveTS_not_mem (ledger : List Int) (t : Int) :
    resolveTS ledger t ∉ ledger :=
  (resolveFrom_spec ledger (ledger.length + 1) t (exists_free_slot ledger t)).1

/-- The resolved timestamp is at least the original value. -/
theorem resolveTS_le (ledger : List Int) (t : Int) :
    t ≤ resolveTS ledger t :=
  (resolveFrom_spec ledger (ledger.length + 1) t (exists_free_slot ledger t)).2.1

/-- Minimality: every value between the original and the resolved timestamp
is already in the ledger (the increment count is the smallest possible). -/
theorem resolveTS_min (ledger : List Int) (t : Int) :
    ∀ v : Int, t ≤ v → v < resolveTS ledger t → v ∈ ledger :=
  (resolveFrom_spec ledger (ledger.length + 1) t (exists_free_slot ledger t)).2.2

/-- Monotone consequence: once a resolved value is recorded (in any larger
ledger), resolving the same original timestamp again yields a strictly
larger value. -/
theorem resolveTS_strict_growth (L L' : List Int) (t : Int)
    (hsub : L ⊆ L') (hmem : resolveTS L t ∈ L') :
    resolveTS L t < resolveTS L' t := by
  rcases lt_trichotomy (resolveTS L t) (resolveTS L' t) with h | h | h
  · exact h
  · exact absurd (h ▸ hmem) (resolveTS_not_mem L' t)
  · have ht : t ≤ resolveTS L' t := resolveTS_le L' t
    have : resolveTS L' t ∈ L := resolveTS_min L t _ ht h
    exact absurd (hsub this) (resolveTS_not_mem L' t)

/-! ## Thread stores

The `ThreadsStorage` interface and its two implementations
(`newMemoryStorage`, `newRedisStorage`) live in a source file that is not
among the provided sources; only the test `TestRedisStorage` and the callers
are.  Both variants are therefore modelled from the spec (§4.1) and from the
behaviour the test asserts.  Association lists play the role of the Go maps
and of the Redis keyspace (one channel namespace). -/

/-- First value bound to `k`, if any (Go map read / Redis GET). -/
def assocFind (l : List (String × IntermediatePost)) (k : String) :
    Option IntermediatePost :=
  match l with
  | [] => none
  | (k', p) :: rest => if k' = k then some p else assocFind rest k

/-- Insert-or-replace (Go map write / Redis SET). -/
def assocInsert (l : List (String × IntermediatePost)) (k : String)
    (p : IntermediatePost) : List (String × IntermediatePost) :=
  match l with
  | [] => [(k, p)]
  | (k', p') :: rest =>
    if k' = k then (k, p) :: rest else (k', p') :: assocInsert rest k p

/-- Apply `f` to the value bound to `k`, if any (the embedding of an
in-place mutation through a pointer obtained from the map). -/
def assocUpdate (l : List (String × IntermediatePost)) (k : String)
    (f : IntermediatePost → IntermediatePost) : List (String × IntermediatePost) :=
  match l with
  | [] => []
  | (k', p') :: rest =>
    if k' = k then (k, f p') :: rest else (k', p') :: assocUpdate rest k f

/-- Append `t` unless already present (idempotent touched-set insert). -/
def touchOnce (l : List String) (t : String) : List String :=
  if t ∈ l then l else l ++ [t]

/-- Modelled from the spec: the in-memory thread store variant
(`newMemoryStorage`): a map from thread identifier to the root post.  Every
entry is created during the store's lifetime, so `getChangedThreads`
returns all stored posts. -/
structure MemoryStorage : Type where
  threads : List (String × IntermediatePost)

namespace MemoryStorage

def new : MemoryStorage := ⟨[]⟩

def lookupThread (s : MemoryStorage) (t : String) : Option IntermediatePost :=
  assocFind s.threads t

def hasThread (s : MemoryStorage) (t : String) : Bool :=
  (assocFind s.threads t).isSome

def storeThread (s : MemoryStorage) (t : String) (p : IntermediatePost) :
    MemoryStorage :=
  ⟨assocInsert s.threads t p⟩

def getChangedThreads (s : MemoryStorage) : List IntermediatePost :=
  s.threads.map (·.2)

/-- In-place mutation of the post returned by `lookupThread` (a Go pointer
into the map): visible directly in the store's entry. -/
def mutateThread (s : MemoryStorage) (t : String)
    (f : IntermediatePost → IntermediatePost) : MemoryStorage :=
  ⟨assocUpdate s.threads t f⟩

end MemoryStorage

/-- Modelled from the spec and `TestRedisStorage`: the cache-backed thread
store variant (`newRedisStorage`).  `backend` is the shared remote keyspace
for this channel's namespace (it outlives the instance), `cache` the local
write cache, `touched` the change-tracking set of thread identifiers stored
or successfully looked up by this instance, in first-touch order.
`StoreThread` writes both the local cache and the backend (the test asserts
that a second instance over the same backend can look a stored post up
without any intervening flush); a `lookupThread` miss in the cache fetches
from the backend, populates the cache and marks the identifier touched. -/
structure RedisStorage : Type where
  backend : List (String × IntermediatePost)
  cache : List (String × IntermediatePost)
  touched : List String

namespace RedisStorage

/-- A fresh instance over an existing shared backend: empty local cache,
empty touched set. -/
def new (backend : List (String × IntermediatePost)) : RedisStorage :=
  ⟨backend, [], []⟩

def storeThread (s : RedisStorage) (t : String) (p : IntermediatePost) :
    RedisStorage :=
  ⟨assocInsert s.backend t p, assocInsert s.cache t p, touchOnce s.touched t⟩

/-- Lookup returns the post together with the updated instance state (the
Go method mutates the receiver's cache and change set on a remote fetch). -/
def lookupThread (s : RedisStorage) (t : String) :
    Option IntermediatePost × RedisStorage :=
  match assocFind s.cache t with
  | some p => (some p, { s with touched := touchOnce s.touched t })
  | none =>
    match assocFind s.backend t with
    | some p =>
      (some p, { s with cache := assocInsert s.cache t p,
                        touched := touchOnce s.touched t })
    | none => (none, s)

def hasThread (s : RedisStorage) (t : String) : Bool :=
  (assocFind s.cache t).isSome || (assocFind s.backend t).isSome

/-- The posts of the touched thread identifiers, from the local cache. -/
def getChangedThreads (s : RedisStorage) : List IntermediatePost :=
  s.touched.filterMap (assocFind s.cache)

/-- In-place mutation of the post returned by `lookupThread` (a Go pointer
into the local cache): visible in the cache entry, not written back to the
backend until the final export pass. -/
def mutateThread (s : RedisStorage) (t : String)
    (f : IntermediatePost → IntermediatePost) : RedisStorage :=
  { s with cache := assocUpdate s.cache t f }

end RedisStorage

/-! ## AddPostToThreads

Embedding of `AddPostToThreads(original, post, threads, channel, timestamps,
importWorkflowPosts)`.  The Go function mutates `post`, `threads` and
`timestamps` and logs; the embedding returns the updated store, the updated
timestamp ledger and the list of emitted log events.  The thread store used
by the in-memory pipeline path is `MemoryStorage` (Go's reply append mutates
the stored root through the map pointer, which in that model is exactly an
entry update). -/

/-- Lines 291–296: direct/group channels mark the post and attach the
member usernames. -/
def enrichForChannel (channel : IntermediateChannel) (post : IntermediatePost) :
    IntermediatePost :=
  if channel.type = ChannelType.directCh ∨ channel.type = ChannelType.groupCh then
    (post.setIsDirect true).setChannelMembers channel.membersUsernames
  else
    post.setIsDirect false

def addPostToThreads (original : SlackPost) (post : IntermediatePost)
    (threads : MemoryStorage) (channel : IntermediateChannel)
    (timestamps : List Int) (importWorkflowPosts : Bool) :
    MemoryStorage × List Int × List LogEvent :=
  let post := enrichForChannel channel post
  -- avoid timestamp duplications (lines 298–306)
  let post := post.setCreateAt (resolveTS timestamps post.createAt)
  let timestamps := post.createAt :: timestamps
  -- if post is part of a thread (lines 309–320)
  if original.threadTS ≠ "" ∧ original.threadTS ≠ original.timeStamp then
    match threads.lookupThread original.threadTS with
    | none => (threads, timestamps, [LogEvent.errorNoRoot original])
    | some rootPost =>
      if ¬ importWorkflowPosts ∧ rootPost.user = WorkflowUserName then
        (threads, timestamps, [])
      else
        (threads.mutateThread original.threadTS (·.appendReply post),
          timestamps, [])
  else
    let post := sanitisePost post
    -- if post is the root of a thread (lines 324–330)
    if original.timeStamp = original.threadTS then
      let logs := if threads.hasThread original.threadTS then
        [LogEvent.warnOverwrite original.threadTS] else []
      (threads.storeThread original.threadTS post, timestamps, logs)
    else
      let logs := if threads.hasThread original.timeStamp then
        [LogEvent.warnOverwrite original.timeStamp] else []
      (threads.storeThread original.timeStamp post, timestamps, logs)

/-! ## Attachment-props handling in TransformPosts

Lines 484–498 (plain message) and 554–568 (bot message) of the source are
the same block: if the Slack message carries attachments, serialize the
props map `{"attachments": ...}` and either attach it, drop it with a
warning, or discard the whole message, depending on size and
configuration. -/

/-- Modelled from the spec: `model.PostPropsMaxRunes`, the destination's
maximum serialized props size (vendor constant, not among the sources). -/
def PostPropsMaxRunes : Nat := 800000

/-- Embedding of the attachment-props block of `TransformPosts`.
`serializedRunes` abstracts `utf8.RuneCountInString(string(json.Marshal(props)))`
(library code external to the sources); `none` as first component means the
whole message is discarded (`continue`). -/
def attachPropsToPost (serializedRunes : List String → Nat)
    (discardInvalidProps : Bool) (slackAttachments : List String)
    (post : IntermediatePost) : Option IntermediatePost × List LogEvent :=
  if slackAttachments.length > 0 then
    let props := slackAttachments
    if serializedRunes props ≤ PostPropsMaxRunes then
      (some (post.setProps (some props)), [])
    else
      if discardInvalidProps then
        (none, [LogEvent.warnOversizedPropsSkipPost])
      else
        (some post, [LogEvent.warnOversizedPropsDropped])
  else
    (some post, [])

/-! ## Channel transformation -/

/-- Modelled from the spec: destination field-length limits used by
`Sanitise` (`model.*` vendor constants, not among the sources). -/
def ChannelNameMaxLength : Nat := 64

/-- Modelled from the spec: display-name rune limit (`model.*`). -/
def ChannelDisplayNameMaxRunes : Nat := 64

/-- Modelled from the spec: purpose rune limit (`model.*`). -/
def ChannelPurposeMaxRunes : Nat := 250

/-- Modelled from the spec: header rune limit (`model.*`). -/
def ChannelHeaderMaxRunes : Nat := 1024

/-- Modelled from the spec: the group-channel member maximum
(`model.ChannelGroupMaxUsers`). -/
def ChannelGroupMaxUsers : Nat := 8

/-- Modelled from the spec: the raw Slack channel record, restricted to the
fields `TransformChannels` reads (`Purpose.Value` and `Topic.Value` are
flattened into plain strings). -/
structure SlackChannel : Type where
  id : String
  name : String
  members : List String
  purpose : String
  topic : String
  type : ChannelType
deriving Repr

/-- Character set of Go's `strings.Trim(s, "_-")`. -/
def isTrimmedChar (c : Char) : Bool := c = '_' || c = '-'

/-- Embedding of `strings.Trim(s, "_-")`. -/
def trimUnderscoreDash (s : String) : String :=
  String.mk (((s.toList.dropWhile isTrimmedChar).reverse.dropWhile
    isTrimmedChar).reverse)

/-- Modelled from the spec: `truncateRunes` (helper not among the sources):
keep the first `n` runes. -/
def truncateRunes (s : String) (n : Nat) : String :=
  String.mk (s.toList.take n)

/-- Embedding of `(*IntermediateChannel).Sanitise`.  `validName` abstracts
`isValidChannelNameCharacters` and `nameTrunc` the byte-level slice
`c.Name[0:n]` (both outside the provided sources); `len(...)` on Go strings
is the UTF-8 byte size, `utf8.RuneCountInString` the rune count. -/
def sanitiseChannel (validName : String → Bool)
    (nameTrunc : String → Nat → String) (c : IntermediateChannel) :
    IntermediateChannel :=
  if c.type = ChannelType.directCh then c
  else
    let name := trimUnderscoreDash c.name
    let name := if name.utf8ByteSize > ChannelNameMaxLength then
      nameTrunc name ChannelNameMaxLength else name
    let name := if name.utf8ByteSize = 1 then "slack-channel-" ++ name else name
    let name := if ¬ validName name then c.id.toLower else name
    let dn := trimUnderscoreDash c.displayName
    let dn := if dn.length > ChannelDisplayNameMaxRunes then
      truncateRunes dn ChannelDisplayNameMaxRunes else dn
    let dn := if dn.utf8ByteSize = 1 then "slack-channel-" ++ dn else dn
    let purpose := if c.purpose.length > ChannelPurposeMaxRunes then
      truncateRunes c.purpose ChannelPurposeMaxRunes else c.purpose
    let header := if c.header.length > ChannelHeaderMaxRunes then
      truncateRunes c.header ChannelHeaderMaxRunes else c.header
    { c with name := name, displayName := dn, purpose := purpose,
             header := header }

/-- Embedding of `filterValidMembers`; `users` is the key set of the
`map[string]*IntermediateUser` argument. -/
def filterValidMembers (members : List String) (users : List String) :
    List String :=
  members.filter (fun m => m ∈ users)

/-- Embedding of `getOriginalName`. -/
def getOriginalName (channel : SlackChannel) : String :=
  if channel.name = "" then channel.id else channel.name

/-- Embedding of the body of the `TransformChannels` loop for one channel;
`none` models `continue` (no output channel).  `convertName` abstracts
`SlackConvertChannelName` (not among the sources). -/
def transformOneChannel (users : List String)
    (convertName : String → String → String) (validName : String → Bool)
    (nameTrunc : String → Nat → String) (channel : SlackChannel) :
    Option IntermediateChannel :=
  let validMembers := filterValidMembers channel.members users
  if (channel.type = ChannelType.directCh ∨ channel.type = ChannelType.groupCh) ∧
      validMembers.length ≤ 1 then
    none
  else
    let channel :=
      if channel.type = ChannelType.groupCh ∧
          validMembers.length > ChannelGroupMaxUsers then
        { channel with name := channel.purpose, type := ChannelType.privateCh }
      else channel
    let name := convertName channel.name channel.id
    some (sanitiseChannel validName nameTrunc
      { id := "", originalName := getOriginalName channel, name := name,
        displayName := getOriginalName channel, members := validMembers,
        membersUsernames := [], purpose := channel.purpose,
        header := channel.topic, topic := "", type := channel.type })

/-- Embedding of `TransformChannels`: the per-channel loop appending each
produced channel. -/
def transformChannels (users : List String)
    (convertName : String → String → String) (validName : String → Bool)
    (nameTrunc : String → Nat → String) (channels : List SlackChannel) :
    List IntermediateChannel :=
  channels.filterMap (transformOneChannel users convertName validName nameTrunc)

/-! ## Helper lemmas -/

@[simp] theorem createAt_setCreateAt (p : IntermediatePost) (t : Int) :
    (p.setCreateAt t).createAt = t := by
  cases p; rfl

@[simp] theorem createAt_setMessage (p : IntermediatePost) (m : String) :
    (p.setMessage m).createAt = p.createAt := by
  cases p; rfl

@[simp] theorem user_setMessage (p : IntermediatePost) (m : String) :
    (p.setMessage m).user = p.user := by
  cases p; rfl

@[simp] theorem replies_appendReply (p r : IntermediatePost) :
    (p.appendReply r).replies = p.replies ++ [r] := by
  cases p; rfl

@[simp] theorem createAt_sanitisePost (p : IntermediatePost) :
    (sanitisePost p).createAt = p.createAt := by
  unfold sanitisePost
  split <;> simp

theorem assocFind_assocInsert_self (l : List (String × IntermediatePost))
    (k : String) (p : IntermediatePost) :
    assocFind (assocInsert l k p) k = some p := by
  induction l with
  | nil => simp [assocInsert, assocFind]
  | cons hd tl ih =>
    obtain ⟨k', p'⟩ := hd
    by_cases h : k' = k
    · simp [assocInsert, assocFind, h]
    · simp [assocInsert, assocFind, h, ih]

theorem assocFind_assocUpdate_self (l : List (String × IntermediatePost))
    (k : String) (f : IntermediatePost → IntermediatePost)
    (p : IntermediatePost) (h : assocFind l k = some p) :
    assocFind (assocUpdate l k f) k = some (f p) := by
  induction l with
  | nil => simp [assocFind] at h
  | cons hd tl ih =>
    obtain ⟨k', p'⟩ := hd
    by_cases hk : k' = k
    · simp [assocFind, hk] at h
      simp [assocUpdate, assocFind, hk, h]
    · simp [assocFind, hk] at h
      simp [assocUpdate, assocFind, hk, ih h]

theorem mem_touchOnce_self (l : List String) (t : String) :
    t ∈ touchOnce l t := by
  unfold touchOnce
  split
  · assumption
  · simp

theorem mem_map_snd_assocUpdate (l : List (String × IntermediatePost))
    (k : String) (f : IntermediatePost → IntermediatePost)
    (p : IntermediatePost) (h : assocFind l k = some p) :
    f p ∈ (assocUpdate l k f).map (·.2) := by
  induction l with
  | nil => simp [assocFind] at h
  | cons hd tl ih =>
    obtain ⟨k', p'⟩ := hd
    by_cases hk : k' = k
    · simp [assocFind, hk] at h
      simp [assocUpdate, hk, h]
    · simp [assocFind, hk] at h
      simp only [assocUpdate, hk, if_false, List.map_cons, List.mem_cons]
      exact Or.inr (ih h)

theorem MemoryStorage.lookupThread_storeThread_self (s : MemoryStorage)
    (k : String) (p : IntermediatePost) :
    (s.storeThread k p).lookupThread k = some p :=
  assocFind_assocInsert_self s.threads k p

theorem RedisStorage.lookupThread_success (s : RedisStorage) (t : String)
    (p : IntermediatePost) (h : (s.lookupThread t).1 = some p) :
    assocFind (s.lookupThread t).2.cache t = some p ∧
      t ∈ (s.lookupThread t).2.touched := by
  unfold RedisStorage.lookupThread at h ⊢
  cases hc : assocFind s.cache t with
  | some q =>
    simp only [hc] at h
    simp only [Option.some.injEq] at h
    simp [hc, h, mem_touchOnce_self]
  | none =>
    simp only [hc] at h ⊢
    cases hb : assocFind s.backend t with
    | some q =>
      simp only [hb, Option.some.injEq] at h
      simp [hb, ← h, assocFind_assocInsert_self, mem_touchOnce_self]
    | none =>
      simp [hb] at h

/-- A concrete post used in witnesses. -/
def samplePost (t : Int) : IntermediatePost :=
  .mk "alice" "town-square" "hello" none t [] [] false []

/-- A concrete thread-root post authored by the synthesized workflow user. -/
def workflowRoot : IntermediatePost :=
  .mk WorkflowUserName "town-square" "root" none 5 [] [] false []

/-- A concrete public channel used in witnesses. -/
def sampleChannel : IntermediateChannel :=
  ⟨"C1", "general", "general", "general", [], [], "", "", "", ChannelType.openCh⟩

/-- In every branch of `AddPostToThreads` the ledger is extended with the
resolved creation time before classification. -/
theorem addPostToThreads_ledger (o : SlackPost) (p : IntermediatePost)
    (th : MemoryStorage) (ch : IntermediateChannel) (ts : List Int)
    (iwp : Bool) :
    (addPostToThreads o p th ch ts iwp).2.1 =
      resolveTS ts (enrichForChannel ch p).createAt :: ts := by
  simp only [addPostToThreads]
  repeat' split
  all_goals simp

/-! ## Claims -/

/-- C2: Before root/reply classification, the post's creation time is
advanced by the smallest number of unit increments needed to reach a value
absent from the channel's timestamp ledger, and that value is recorded in
the ledger (in every branch); consequently, for two messages with identical
original timestamps processed in order, the resolved times are distinct with
the first strictly smaller, and each resolved time differs from every value
already in the ledger. -/
theorem C2_timestamp_collision_resolution :
    (∀ (L : List Int) (t : Int),
      resolveTS L t ∉ L ∧ t ≤ resolveTS L t ∧
        ∀ v : Int, t ≤ v → v < resolveTS L t → v ∈ L) ∧
    (∀ (o : SlackPost) (p : IntermediatePost) (th : MemoryStorage)
        (ch : IntermediateChannel) (ts : List Int) (iwp : Bool),
      (addPostToThreads o p th ch ts iwp).2.1 =
        resolveTS ts (enrichForChannel ch p).createAt :: ts) ∧
    (∀ (L L' : List Int) (t : Int), L ⊆ L' → resolveTS L t ∈ L' →
      resolveTS L t < resolveTS L' t) ∧
    (∀ (L : List Int) (t v : Int), v ∈ L → resolveTS L t ≠ v) := by
  refine ⟨fun L t => ⟨resolveTS_not_mem L t, resolveTS_le L t, resolveTS_min L t⟩,
    addPostToThreads_ledger, resolveTS_strict_growth, fun L t v hv heq => ?_⟩
  exact resolveTS_not_mem L t (heq ▸ hv)

/-- Witness for C2 at concrete inputs. -/
theorem C2_witness :
    resolveTS [(10 : Int)] 10 ∉ [(10 : Int)] ∧
    (addPostToThreads ⟨"7", ""⟩ (samplePost 7) MemoryStorage.new sampleChannel
        [7] false).2.1 =
      resolveTS [7] (enrichForChannel sampleChannel (samplePost 7)).createAt
        :: [7] ∧
    resolveTS [(10 : Int)] 10 < resolveTS [(10 : Int), 11] 10 ∧
    resolveTS [(10 : Int)] 10 ≠ 10 :=
  ⟨(C2_timestamp_collision_resolution.1 [10] 10).1,
   C2_timestamp_collision_resolution.2.1 ⟨"7", ""⟩ (samplePost 7)
     MemoryStorage.new sampleChannel [7] false,
   C2_timestamp_collision_resolution.2.2.1 [10] [10, 11] 10 (by decide)
     (by decide),
   C2_timestamp_collision_resolution.2.2.2 [10] 10 10 (by decide)⟩

/-- C3: A reply whose thread-root timestamp is non-empty, differs from its
own timestamp, and has no stored root is dropped: the store is unchanged,
the failure is reported, the resolved timestamp is still recorded, and the
function returns normally (it has no error result, so the channel's
processing continues). -/
theorem C3_missing_root_reply_dropped (o : SlackPost) (p : IntermediatePost)
    (th : MemoryStorage) (ch : IntermediateChannel) (ts : List Int)
    (iwp : Bool) (h1 : o.threadTS ≠ "") (h2 : o.threadTS ≠ o.timeStamp)
    (h3 : th.lookupThread o.threadTS = none) :
    addPostToThreads o p th ch ts iwp =
      (th, resolveTS ts (enrichForChannel ch p).createAt :: ts,
        [LogEvent.errorNoRoot o]) := by
  simp only [addPostToThreads, h3]
  simp [h1, h2]

/-- Witness for C3 at concrete inputs. -/
theorem C3_witness :
    addPostToThreads ⟨"15", "99"⟩ (samplePost 15) MemoryStorage.new
        sampleChannel [] false =
      (MemoryStorage.new,
        resolveTS [] (enrichForChannel sampleChannel (samplePost 15)).createAt
          :: [],
        [LogEvent.errorNoRoot ⟨"15", "99"⟩]) :=
  C3_missing_root_reply_dropped ⟨"15", "99"⟩ (samplePost 15) MemoryStorage.new
    sampleChannel [] false (by decide) (by decide) rfl

/-- C9: A reply whose stored root was authored by the synthesized workflow
user is dropped silently when the import-workflow-messages flag is off: no
log event, the store (hence the root's replies) unchanged, yet its resolved
timestamp was already recorded in the channel's ledger. -/
theorem C9_workflow_root_reply_dropped_silently (o : SlackPost)
    (p : IntermediatePost) (th : MemoryStorage) (ch : IntermediateChannel)
    (ts : List Int) (root : IntermediatePost) (h1 : o.threadTS ≠ "")
    (h2 : o.threadTS ≠ o.timeStamp)
    (h3 : th.lookupThread o.threadTS = some root)
    (h4 : root.user = WorkflowUserName) :
    addPostToThreads o p th ch ts false =
      (th, resolveTS ts (enrichForChannel ch p).createAt :: ts, []) ∧
    resolveTS ts (enrichForChannel ch p).createAt ∈
      (addPostToThreads o p th ch ts false).2.1 := by
  have key : addPostToThreads o p th ch ts false =
      (th, resolveTS ts (enrichForChannel ch p).createAt :: ts, []) := by
    simp only [addPostToThreads, h3]
    simp [h1, h2, h4]
  exact ⟨key, by rw [key]; simp⟩

/-- Witness for C9 at concrete inputs. -/
theorem C9_witness :
    addPostToThreads ⟨"15", "99"⟩ (samplePost 15)
        (MemoryStorage.new.storeThread "99" workflowRoot) sampleChannel []
        false =
      (MemoryStorage.new.storeThread "99" workflowRoot,
        resolveTS [] (enrichForChannel sampleChannel (samplePost 15)).createAt
          :: [],
        []) ∧
    resolveTS [] (enrichForChannel sampleChannel (samplePost 15)).createAt ∈
      (addPostToThreads ⟨"15", "99"⟩ (samplePost 15)
        (MemoryStorage.new.storeThread "99" workflowRoot) sampleChannel []
        false).2.1 :=
  C9_workflow_root_reply_dropped_silently ⟨"15", "99"⟩ (samplePost 15)
    (MemoryStorage.new.storeThread "99" workflowRoot) sampleChannel []
    workflowRoot (by decide) (by decide) rfl rfl

/-- In the root case (empty thread-root timestamp, or thread-root timestamp
equal to the message's own), `AddPostToThreads` stores the sanitised,
collision-resolved post under the message's own (original) timestamp string
and warns iff an entry already exists under that identifier. -/
theorem addPostToThreads_root_case (o : SlackPost) (p : IntermediatePost)
    (th : MemoryStorage) (ch : IntermediateChannel) (ts : List Int)
    (iwp : Bool) (hroot : o.threadTS = "" ∨ o.threadTS = o.timeStamp) :
    addPostToThreads o p th ch ts iwp =
      (th.storeThread o.timeStamp
        (sanitisePost ((enrichForChannel ch p).setCreateAt
          (resolveTS ts (enrichForChannel ch p).createAt))),
       resolveTS ts (enrichForChannel ch p).createAt :: ts,
       if th.hasThread o.timeStamp then [LogEvent.warnOverwrite o.timeStamp]
       else []) := by
  rcases hroot with hA | hB
  · by_cases hT : o.timeStamp = ""
    · simp [addPostToThreads, hA, hT]
    · simp [addPostToThreads, hA, hT]
  · simp [addPostToThreads, hB]

/-- C4: A message whose thread-root timestamp is empty or equal to its own
timestamp is treated as a root: the post is stored under the message's own
timestamp; if a post is already stored under that identifier a non-fatal
overwrite warning is reported and the entry is replaced (a subsequent lookup
returns the new post, not a merge). -/
theorem C4_root_stored_overwrite_warns (o : SlackPost) (p : IntermediatePost)
    (th : MemoryStorage) (ch : IntermediateChannel) (ts : List Int)
    (iwp : Bool) (hroot : o.threadTS = "" ∨ o.threadTS = o.timeStamp) :
    (addPostToThreads o p th ch ts iwp).1 =
      th.storeThread o.timeStamp
        (sanitisePost ((enrichForChannel ch p).setCreateAt
          (resolveTS ts (enrichForChannel ch p).createAt))) ∧
    (addPostToThreads o p th ch ts iwp).1.lookupThread o.timeStamp =
      some (sanitisePost ((enrichForChannel ch p).setCreateAt
        (resolveTS ts (enrichForChannel ch p).createAt))) ∧
    (addPostToThreads o p th ch ts iwp).2.2 =
      (if th.hasThread o.timeStamp then [LogEvent.warnOverwrite o.timeStamp]
       else []) := by
  have key := addPostToThreads_root_case o p th ch ts iwp hroot
  refine ⟨by rw [key], ?_, by rw [key]⟩
  rw [key]
  exact MemoryStorage.lookupThread_storeThread_self th o.timeStamp _

/-- Witness for C4: storing a root over an existing entry with the same
timestamp replaces it and warns. -/
theorem C4_witness :
    (addPostToThreads ⟨"10", "10"⟩ (samplePost 10)
        (MemoryStorage.new.storeThread "10" workflowRoot) sampleChannel []
        false).1 =
      (MemoryStorage.new.storeThread "10" workflowRoot).storeThread "10"
        (sanitisePost ((enrichForChannel sampleChannel (samplePost 10)).setCreateAt
          (resolveTS [] (enrichForChannel sampleChannel (samplePost 10)).createAt))) ∧
    (addPostToThreads ⟨"10", "10"⟩ (samplePost 10)
        (MemoryStorage.new.storeThread "10" workflowRoot) sampleChannel []
        false).1.lookupThread "10" =
      some (sanitisePost ((enrichForChannel sampleChannel (samplePost 10)).setCreateAt
        (resolveTS [] (enrichForChannel sampleChannel (samplePost 10)).createAt))) ∧
    (addPostToThreads ⟨"10", "10"⟩ (samplePost 10)
        (MemoryStorage.new.storeThread "10" workflowRoot) sampleChannel []
        false).2.2 =
      (if (MemoryStorage.new.storeThread "10" workflowRoot).hasThread "10" then
        [LogEvent.warnOverwrite "10"] else []) :=
  C4_root_stored_overwrite_warns ⟨"10", "10"⟩ (samplePost 10)
    (MemoryStorage.new.storeThread "10" workflowRoot) sampleChannel [] false
    (Or.inr rfl)

/-- C1 counterexample: a root message with original timestamp "10" whose
creation time 10 collides (the ledger already holds 10) is stored under the
key "10" — the message's original timestamp — while its emitted creation
time is the post-increment value 11; so the store key is not the
post-increment creation time, contradicting the claim's "never the
message's original timestamp value". -/
theorem C1_counterexample :
    ((addPostToThreads ⟨"10", ""⟩ (samplePost 10) MemoryStorage.new
        sampleChannel [10] false).1.threads.map Prod.fst = ["10"]) ∧
    ((addPostToThreads ⟨"10", ""⟩ (samplePost 10) MemoryStorage.new
        sampleChannel [10] false).1.threads.map
        (fun e => e.2.createAt) = [11]) ∧
    ("10" : String) ≠ toString (11 : Int) :=
  ⟨rfl, rfl, by decide⟩

/-- C1 (amended): the creation time emitted on the post is the
post-increment (collision-resolved) value — never the original — for roots
and replies alike, while the thread-store key for a root post is the
message's original timestamp string (the identifier replies carry), not the
resolved creation time. -/
theorem C1_resolved_createAt_original_key (o : SlackPost)
    (p : IntermediatePost) (th : MemoryStorage) (ch : IntermediateChannel)
    (ts : List Int) (iwp : Bool) :
    (o.threadTS = "" ∨ o.threadTS = o.timeStamp →
      (addPostToThreads o p th ch ts iwp).1 =
        th.storeThread o.timeStamp
          (sanitisePost ((enrichForChannel ch p).setCreateAt
            (resolveTS ts (enrichForChannel ch p).createAt))) ∧
      ((addPostToThreads o p th ch ts iwp).1.lookupThread o.timeStamp).map
          IntermediatePost.createAt =
        some (resolveTS ts (enrichForChannel ch p).createAt)) ∧
    (∀ root : IntermediatePost, o.threadTS ≠ "" →
      o.threadTS ≠ o.timeStamp → th.lookupThread o.threadTS = some root →
      (iwp = true ∨ root.user ≠ WorkflowUserName) →
      (addPostToThreads o p th ch ts iwp).1 =
        th.mutateThread o.threadTS
          (·.appendReply ((enrichForChannel ch p).setCreateAt
            (resolveTS ts (enrichForChannel ch p).createAt)))) := by
  constructor
  · intro hroot
    have key := addPostToThreads_root_case o p th ch ts iwp hroot
    refine ⟨by rw [key], ?_⟩
    rw [key, MemoryStorage.lookupThread_storeThread_self]
    simp
  · intro root h1 h2 h3 h4
    simp only [addPostToThreads, h3]
    have hcond : ¬(iwp = false ∧ root.user = WorkflowUserName) := by
      rcases h4 with h | h
      · simp [h]
      · intro hc
        exact h hc.2
    simp [h1, h2, hcond]

/-- Witness for C1: the amended theorem at a concrete root message and at a
concrete reply message. -/
theorem C1_witness :
    (addPostToThreads ⟨"10", ""⟩ (samplePost 10) MemoryStorage.new
        sampleChannel [10] false).1 =
      MemoryStorage.new.storeThread "10"
        (sanitisePost ((enrichForChannel sampleChannel (samplePost 10)).setCreateAt
          (resolveTS [10] (enrichForChannel sampleChannel (samplePost 10)).createAt))) ∧
    (addPostToThreads ⟨"15", "99"⟩ (samplePost 15)
        (MemoryStorage.new.storeThread "99" (samplePost 9)) sampleChannel []
        false).1 =
      (MemoryStorage.new.storeThread "99" (samplePost 9)).mutateThread "99"
        (·.appendReply ((enrichForChannel sampleChannel (samplePost 15)).setCreateAt
          (resolveTS [] (enrichForChannel sampleChannel (samplePost 15)).createAt))) :=
  ⟨((C1_resolved_createAt_original_key ⟨"10", ""⟩ (samplePost 10)
      MemoryStorage.new sampleChannel [10] false).1 (Or.inl rfl)).1,
   (C1_resolved_createAt_original_key ⟨"15", "99"⟩ (samplePost 15)
      (MemoryStorage.new.storeThread "99" (samplePost 9)) sampleChannel []
      false).2 (samplePost 9) (by decide) (by decide) rfl
      (Or.inr (by decide))⟩

/-- C5: In either thread-store variant, immediately after
`StoreThread(T, P)`, `HasThread(T)` is true and `LookupThread(T)` returns
`P`; and on a fresh store whose backing holds no entry for `T`,
`HasThread(T)` is false and `LookupThread(T)` returns the absence signal
without error. -/
theorem C5_store_lookup_roundtrip :
    (∀ (s : MemoryStorage) (t : String) (p : IntermediatePost),
      (s.storeThread t p).hasThread t = true ∧
        (s.storeThread t p).lookupThread t = some p) ∧
    (∀ t : String, MemoryStorage.new.hasThread t = false ∧
      MemoryStorage.new.lookupThread t = none) ∧
    (∀ (s : RedisStorage) (t : String) (p : IntermediatePost),
      (s.storeThread t p).hasThread t = true ∧
        ((s.storeThread t p).lookupThread t).1 = some p) ∧
    (∀ (b : List (String × IntermediatePost)) (t : String),
      assocFind b t = none →
        (RedisStorage.new b).hasThread t = false ∧
          (RedisStorage.new b).lookupThread t = (none, RedisStorage.new b)) := by
  refine ⟨fun s t p => ⟨?_, MemoryStorage.lookupThread_storeThread_self s t p⟩,
    fun t => ⟨rfl, rfl⟩, fun s t p => ⟨?_, ?_⟩, fun b t hb => ⟨?_, ?_⟩⟩
  · simp [MemoryStorage.hasThread, MemoryStorage.storeThread,
      assocFind_assocInsert_self]
  · simp [RedisStorage.hasThread, RedisStorage.storeThread,
      assocFind_assocInsert_self]
  · simp [RedisStorage.lookupThread, RedisStorage.storeThread,
      assocFind_assocInsert_self]
  · simp [RedisStorage.hasThread, RedisStorage.new, assocFind, hb]
  · simp [RedisStorage.lookupThread, RedisStorage.new, assocFind, hb]

/-- Witness for C5 at concrete inputs (both variants, empty backing). -/
theorem C5_witness :
    ((MemoryStorage.new.storeThread "11" (samplePost 0)).hasThread "11" = true ∧
      (MemoryStorage.new.storeThread "11" (samplePost 0)).lookupThread "11" =
        some (samplePost 0)) ∧
    (MemoryStorage.new.hasThread "12" = false ∧
      MemoryStorage.new.lookupThread "12" = none) ∧
    (((RedisStorage.new []).storeThread "11" (samplePost 0)).hasThread "11" =
        true ∧
      (((RedisStorage.new []).storeThread "11" (samplePost 0)).lookupThread
        "11").1 = some (samplePost 0)) ∧
    ((RedisStorage.new []).hasThread "12" = false ∧
      (RedisStorage.new []).lookupThread "12" = (none, RedisStorage.new [])) :=
  ⟨C5_store_lookup_roundtrip.1 MemoryStorage.new "11" (samplePost 0),
   C5_store_lookup_roundtrip.2.1 "12",
   C5_store_lookup_roundtrip.2.2.1 (RedisStorage.new []) "11" (samplePost 0),
   C5_store_lookup_roundtrip.2.2.2 [] "12" rfl⟩

/-- C6: `GetChangedThreads` returns exactly the posts of the identifiers
touched by the instance: an instance that stored two threads reports both;
a second fresh instance over the same shared backend reports nothing until
it touches something, and after fetching one identifier via lookup it
reports exactly that post — the other identifier, though present in the
backend, stays excluded. -/
theorem C6_changed_is_touched (t1 t2 : String) (p1 p2 : IntermediatePost)
    (h : t1 ≠ t2) :
    (((RedisStorage.new []).storeThread t1 p1).storeThread t2
        p2).getChangedThreads = [p1, p2] ∧
    (RedisStorage.new (((RedisStorage.new []).storeThread t1 p1).storeThread
        t2 p2).backend).getChangedThreads = [] ∧
    ((RedisStorage.new (((RedisStorage.new []).storeThread t1 p1).storeThread
        t2 p2).backend).lookupThread t1).1 = some p1 ∧
    ((RedisStorage.new (((RedisStorage.new []).storeThread t1 p1).storeThread
        t2 p2).backend).lookupThread t1).2.getChangedThreads = [p1] ∧
    ((RedisStorage.new (((RedisStorage.new []).storeThread t1 p1).storeThread
        t2 p2).backend).lookupThread t1).2.touched = [t1] ∧
    t2 ∉ ((RedisStorage.new (((RedisStorage.new []).storeThread t1
        p1).storeThread t2 p2).backend).lookupThread t1).2.touched := by
  refine ⟨?_, ?_, ?_, ?_, ?_, ?_⟩ <;>
    simp [RedisStorage.new, RedisStorage.storeThread, RedisStorage.lookupThread,
      RedisStorage.getChangedThreads, assocInsert, assocFind, touchOnce, h,
      Ne.symm h]

/-- Witness for C6 at concrete inputs (mirrors the scenario of
`TestRedisStorage`). -/
theorem C6_witness :
    (((RedisStorage.new []).storeThread "21" (samplePost 1)).storeThread "22"
        (samplePost 2)).getChangedThreads = [samplePost 1, samplePost 2] ∧
    (RedisStorage.new (((RedisStorage.new []).storeThread "21"
        (samplePost 1)).storeThread "22"
        (samplePost 2)).backend).getChangedThreads = [] ∧
    ((RedisStorage.new (((RedisStorage.new []).storeThread "21"
        (samplePost 1)).storeThread "22"
        (samplePost 2)).backend).lookupThread "21").1 = some (samplePost 1) ∧
    ((RedisStorage.new (((RedisStorage.new []).storeThread "21"
        (samplePost 1)).storeThread "22"
        (samplePost 2)).backend).lookupThread "21").2.getChangedThreads =
      [samplePost 1] ∧
    ((RedisStorage.new (((RedisStorage.new []).storeThread "21"
        (samplePost 1)).storeThread "22"
        (samplePost 2)).backend).lookupThread "21").2.touched = ["21"] ∧
    "22" ∉ ((RedisStorage.new (((RedisStorage.new []).storeThread "21"
        (samplePost 1)).storeThread "22"
        (samplePost 2)).backend).lookupThread "21").2.touched :=
  C6_changed_is_touched "21" "22" (samplePost 1) (samplePost 2) (by decide)

/-- C7: the value returned by a successful `LookupThread(T)` is a live
mutable reference: appending a reply to it (modelled as the in-place update
of the entry the returned pointer aliases) is visible in a subsequent
`LookupThread(T)` and in `GetChangedThreads`, with no intervening
`StoreThread` — in both store variants. -/
theorem C7_lookup_returns_live_reference :
    (∀ (s : RedisStorage) (t : String) (p r : IntermediatePost),
      (s.lookupThread t).1 = some p →
      (((s.lookupThread t).2.mutateThread t
          (·.appendReply r)).lookupThread t).1 = some (p.appendReply r) ∧
        p.appendReply r ∈ ((s.lookupThread t).2.mutateThread t
          (·.appendReply r)).getChangedThreads) ∧
    (∀ (s : MemoryStorage) (t : String) (p r : IntermediatePost),
      s.lookupThread t = some p →
      (s.mutateThread t (·.appendReply r)).lookupThread t =
          some (p.appendReply r) ∧
        p.appendReply r ∈
          (s.mutateThread t (·.appendReply r)).getChangedThreads) := by
  constructor
  · intro s t p r h
    obtain ⟨hc, ht⟩ := RedisStorage.lookupThread_success s t p h
    set s1 := (s.lookupThread t).2 with hs1
    have hf := assocFind_assocUpdate_self s1.cache t (·.appendReply r) p hc
    constructor
    · simp [RedisStorage.lookupThread, RedisStorage.mutateThread, hf]
    · exact List.mem_filterMap.mpr ⟨t, ht, hf⟩
  · intro s t p r h
    exact ⟨assocFind_assocUpdate_self s.threads t (·.appendReply r) p h,
      mem_map_snd_assocUpdate s.threads t (·.appendReply r) p h⟩

/-- Witness for C7 at concrete inputs (a backend-resident root in the
cache-backed variant and a stored root in the in-memory variant). -/
theorem C7_witness :
    ((((RedisStorage.new [("31", samplePost 3)]).lookupThread
          "31").2.mutateThread "31"
          (·.appendReply (samplePost 4))).lookupThread "31").1 =
        some ((samplePost 3).appendReply (samplePost 4)) ∧
    (samplePost 3).appendReply (samplePost 4) ∈
      (((RedisStorage.new [("31", samplePost 3)]).lookupThread
        "31").2.mutateThread "31"
        (·.appendReply (samplePost 4))).getChangedThreads ∧
    ((MemoryStorage.new.storeThread "31" (samplePost 3)).mutateThread "31"
        (·.appendReply (samplePost 4))).lookupThread "31" =
      some ((samplePost 3).appendReply (samplePost 4)) ∧
    (samplePost 3).appendReply (samplePost 4) ∈
      ((MemoryStorage.new.storeThread "31" (samplePost 3)).mutateThread "31"
        (·.appendReply (samplePost 4))).getChangedThreads := by
  obtain ⟨a, b⟩ := C7_lookup_returns_live_reference.1
    (RedisStorage.new [("31", samplePost 3)]) "31" (samplePost 3)
    (samplePost 4) rfl
  obtain ⟨c, d⟩ := C7_lookup_returns_live_reference.2
    (MemoryStorage.new.storeThread "31" (samplePost 3)) "31" (samplePost 3)
    (samplePost 4) rfl
  exact ⟨a, b, c, d⟩

/-- C8: For a plain or bot message carrying attachments, if the serialized
props blob exceeds the maximum the pipeline discards the whole message when
discard-invalid-props is on, or drops only the props with a warning
(keeping the message) when it is off; a blob within the limit is attached
to the post unchanged. -/
theorem C8_oversized_props_config (serializedRunes : List String → Nat)
    (discardInvalidProps : Bool) (atts : List String)
    (post : IntermediatePost) (h : atts ≠ []) :
    (serializedRunes atts ≤ PostPropsMaxRunes →
      attachPropsToPost serializedRunes discardInvalidProps atts post =
        (some (post.setProps (some atts)), [])) ∧
    (serializedRunes atts > PostPropsMaxRunes →
      attachPropsToPost serializedRunes true atts post =
        (none, [LogEvent.warnOversizedPropsSkipPost])) ∧
    (serializedRunes atts > PostPropsMaxRunes →
      attachPropsToPost serializedRunes false atts post =
        (some post, [LogEvent.warnOversizedPropsDropped])) := by
  have hlen : atts.length > 0 := List.length_pos.mpr h
  refine ⟨fun hle => ?_, fun hgt => ?_, fun hgt => ?_⟩
  · simp [attachPropsToPost, hlen, hle]
  · simp [attachPropsToPost, hlen, Nat.not_le.mpr hgt]
  · simp [attachPropsToPost, hlen, Nat.not_le.mpr hgt]

/-- Witness for C8: all three configurations at concrete inputs. -/
theorem C8_witness :
    attachPropsToPost List.length true ["a"] (samplePost 0) =
      (some ((samplePost 0).setProps (some ["a"])), []) ∧
    attachPropsToPost (fun _ => 800001) true ["a"] (samplePost 0) =
      (none, [LogEvent.warnOversizedPropsSkipPost]) ∧
    attachPropsToPost (fun _ => 800001) false ["a"] (samplePost 0) =
      (some (samplePost 0), [LogEvent.warnOversizedPropsDropped]) :=
  ⟨(C8_oversized_props_config List.length true ["a"] (samplePost 0)
      (by decide)).1 (by decide),
   (C8_oversized_props_config (fun _ => 800001) true ["a"] (samplePost 0)
      (by decide)).2.1 (by decide),
   (C8_oversized_props_config (fun _ => 800001) false ["a"] (samplePost 0)
      (by decide)).2.2 (by decide)⟩

/-- `Sanitise` never changes a channel's type. -/
theorem type_sanitiseChannel (v : String → Bool) (n : String → Nat → String)
    (c : IntermediateChannel) : (sanitiseChannel v n c).type = c.type := by
  unfold sanitiseChannel
  split <;> rfl

/-- One step of the `TransformChannels` loop. -/
theorem transformChannels_cons (users : List String)
    (conv : String → String → String) (valid : String → Bool)
    (ntr : String → Nat → String) (ch : SlackChannel)
    (rest : List SlackChannel) :
    transformChannels users conv valid ntr (ch :: rest) =
      (transformOneChannel users conv valid ntr ch).toList ++
        transformChannels users conv valid ntr rest := by
  unfold transformChannels
  cases h : transformOneChannel users conv valid ntr ch <;>
    simp [List.filterMap_cons, h]

/-- C10: A direct or group channel with at most one valid member is skipped
entirely (no output channel); a group channel whose valid member count
exceeds the group-channel maximum is emitted as a private channel computed
exactly as if the channel's name were its purpose value. -/
theorem C10_skip_small_convert_big (users : List String)
    (conv : String → String → String) (valid : String → Bool)
    (ntr : String → Nat → String) (ch : SlackChannel)
    (rest : List SlackChannel) :
    ((ch.type = ChannelType.directCh ∨ ch.type = ChannelType.groupCh) →
      (filterValidMembers ch.members users).length ≤ 1 →
      transformChannels users conv valid ntr (ch :: rest) =
        transformChannels users conv valid ntr rest) ∧
    (ch.type = ChannelType.groupCh →
      (filterValidMembers ch.members users).length > ChannelGroupMaxUsers →
      (transformOneChannel users conv valid ntr ch).map
          IntermediateChannel.type = some ChannelType.privateCh ∧
      transformOneChannel users conv valid ntr ch =
        transformOneChannel users conv valid ntr
          { ch with name := ch.purpose, type := ChannelType.privateCh } ∧
      transformChannels users conv valid ntr (ch :: rest) =
        (transformOneChannel users conv valid ntr ch).toList ++
          transformChannels users conv valid ntr rest) := by
  constructor
  · intro hdg hle
    have hnone : transformOneChannel users conv valid ntr ch = none := by
      simp only [transformOneChannel]
      rw [if_pos ⟨hdg, hle⟩]
    rw [transformChannels_cons, hnone]
    simp
  · intro hg hgt
    have hgt8 : (filterValidMembers ch.members users).length > 8 := by
      simpa [ChannelGroupMaxUsers] using hgt
    have hne1 : ¬((ch.type = ChannelType.directCh ∨
        ch.type = ChannelType.groupCh) ∧
        (filterValidMembers ch.members users).length ≤ 1) := by
      intro hc
      omega
    have hsome : transformOneChannel users conv valid ntr ch =
        transformOneChannel users conv valid ntr
          { ch with name := ch.purpose, type := ChannelType.privateCh } := by
      simp only [transformOneChannel]
      rw [if_neg hne1, if_pos ⟨hg, hgt⟩]
      simp
    refine ⟨?_, hsome, transformChannels_cons users conv valid ntr ch rest⟩
    rw [hsome]
    simp only [transformOneChannel]
    rw [if_neg (by simp), if_neg (by simp)]
    simp [type_sanitiseChannel]

/-- Nine known user ids, used in the C10 witness. -/
def usersNine : List String :=
  ["u1", "u2", "u3", "u4", "u5", "u6", "u7", "u8", "u9"]

/-- A group channel with nine valid members, used in the C10 witness. -/
def bigGroupChannel : SlackChannel :=
  ⟨"G1", "grp", usersNine, "proj-purpose", "a topic", ChannelType.groupCh⟩

/-- A direct channel with a single valid member, used in the C10 witness. -/
def smallDirectChannel : SlackChannel :=
  ⟨"D1", "dm", ["u1"], "", "", ChannelType.directCh⟩

/-- Witness for C10: a single-member direct channel is skipped and a
nine-member group channel is emitted as a private channel named from its
purpose. -/
theorem C10_witness :
    transformChannels usersNine (fun n _ => n) (fun _ => true) (fun s _ => s)
        [smallDirectChannel] =
      transformChannels usersNine (fun n _ => n) (fun _ => true)
        (fun s _ => s) [] ∧
    (transformOneChannel usersNine (fun n _ => n) (fun _ => true)
        (fun s _ => s) bigGroupChannel).map IntermediateChannel.type =
      some ChannelType.privateCh ∧
    transformOneChannel usersNine (fun n _ => n) (fun _ => true)
        (fun s _ => s) bigGroupChannel =
      transformOneChannel usersNine (fun n _ => n) (fun _ => true)
        (fun s _ => s)
        { bigGroupChannel with name := bigGroupChannel.purpose, type := ChannelType.privateCh } ∧
    transformChannels usersNine (fun n _ => n) (fun _ => true) (fun s _ => s)
        [bigGroupChannel] =
      (transformOneChannel usersNine (fun n _ => n) (fun _ => true)
        (fun s _ => s) bigGroupChannel).toList ++
        transformChannels usersNine (fun n _ => n) (fun _ => true)
          (fun s _ => s) [] := by
  have ha := (C10_skip_small_convert_big usersNine (fun n _ => n)
    (fun _ => true) (fun s _ => s) smallDirectChannel []).1 (Or.inl rfl)
    (by decide)
  have hb := (C10_skip_small_convert_big usersNine (fun n _ => n)
    (fun _ => true) (fun s _ => s) bigGroupChannel []).2 rfl (by decide)
  exact ⟨ha, hb.1, hb.2.1, hb.2.2⟩

end Mmetl
